import Mathlib

/-!
# Verification of the impossidraw floor-plan graph model

Shallow embedding of the floor-plan data model and its edit operations,
translated from `src/components/FloorPlanCanvas.tsx`, `src/App.tsx` and
`src/types/Room.ts`.  Coordinates are embedded as rationals (`ℚ`); JS
distance comparisons `sqrt(dx²+dy²) < c` are embedded as the equivalent
squared comparison `dx²+dy² < c²`.  Generated uuids become explicit
function parameters.  A JS early `return;` inside an event handler leaves
the React state untouched, so it is embedded as returning the input
floor plan unchanged.
-/

namespace Impossidraw

/-- A vertex of a room's wall graph (`Vertex` in `types/Room.ts`).
The optional TS field `isPortalVertex?` is embedded as a `Bool`
(JS `undefined` and `false` are both falsy). -/
structure Vertex where
  id : String
  x : ℚ
  y : ℚ
  isPortalVertex : Bool := false
deriving DecidableEq, Repr

/-- A wall or portal of a room (`Wall` / `Portal` in `types/Room.ts`).
TS discriminates portals by the presence of the `isPortal` property
(`'isPortal' in wall`); the embedding carries an explicit `isPortal`
flag, `false` for plain walls, which never carry the property. -/
structure Wall where
  id : String
  vertexIds : List String
  isPortal : Bool := false
  connectedRoomId : Option String := none
  connectedPortalId : Option String := none
deriving DecidableEq, Repr

/-- A room (`Room` in `types/Room.ts`).  `portals` is the deprecated
legacy portal list kept by the TS type; graph-based portal walls live
in `walls`. -/
structure Room where
  id : String
  x : ℚ
  y : ℚ
  width : ℚ
  height : ℚ
  name : String
  color : String
  portals : List Wall := []
  portalIds : List String := []
  walls : List Wall := []
  vertices : List Vertex := []
  gridX : ℤ
  gridY : ℤ
deriving DecidableEq, Repr

/-- The whole floor plan (`FloorPlan` in `types/Room.ts`). -/
structure FloorPlan where
  gridSizeWidth : ℚ
  gridSizeHeight : ℚ
  rooms : List Room
deriving DecidableEq, Repr

/-- JS `Math.round`: round half toward positive infinity. -/
def jsRound (q : ℚ) : ℤ := ⌊q + 1/2⌋

/-- Squared distance between a vertex and a point, used to embed the JS
comparison `Math.sqrt(dx*dx+dy*dy) < c` as `distSq < c²`. -/
def distSq (v : Vertex) (px py : ℚ) : ℚ :=
  (v.x - px) * (v.x - px) + (v.y - py) * (v.y - py)

/-- The room record `placeRoomAtGridPosition` creates: fills exactly
one grid cell, snapped world position, empty graph. -/
def newRoomAt (fp : FloorPlan) (gridX gridY : ℤ) (newRoomId name color : String) : Room :=
  { id := newRoomId,
    x := (gridX : ℚ) * fp.gridSizeWidth,
    y := (gridY : ℚ) * fp.gridSizeHeight,
    width := fp.gridSizeWidth,
    height := fp.gridSizeHeight,
    name := name,
    color := color,
    portals := [], portalIds := [], walls := [], vertices := [],
    gridX := gridX, gridY := gridY }

/-- `placeRoomAtGridPosition` (FloorPlanCanvas.tsx:586).  The generated
uuid, the display name and the random color are explicit parameters. -/
def placeRoomAtGridPosition (fp : FloorPlan) (gridX gridY : ℤ)
    (newRoomId name color : String) : FloorPlan :=
  match fp.rooms.find? (fun room => room.gridX == gridX && room.gridY == gridY) with
  | some _ => fp
  | none =>
    { fp with rooms := fp.rooms ++ [newRoomAt fp gridX gridY newRoomId name color] }

/-- `handleRoomDragEnd` (FloorPlanCanvas.tsx:430): the committed form of
a room move.  The occupied / same-cell rejections leave the floor plan
unchanged (the visual revert touches only the Konva node). -/
def handleRoomDragEnd (fp : FloorPlan) (roomId : String) (newX newY : ℚ) : FloorPlan :=
  match fp.rooms.find? (fun r => r.id == roomId) with
  | none => fp
  | some room =>
    let newGridX := jsRound (newX / fp.gridSizeWidth)
    let newGridY := jsRound (newY / fp.gridSizeHeight)
    let snappedX := (newGridX : ℚ) * fp.gridSizeWidth
    let snappedY := (newGridY : ℚ) * fp.gridSizeHeight
    if room.gridX == newGridX && room.gridY == newGridY then fp
    else if fp.rooms.any (fun r => r.id != roomId && r.gridX == newGridX && r.gridY == newGridY) then fp
    else { fp with rooms := fp.rooms.map (fun r =>
        if r.id == roomId then
          { r with x := snappedX, y := snappedY, gridX := newGridX, gridY := newGridY }
        else r) }

/-- `updateRoomSize` (FloorPlanCanvas.tsx:554): clamp to the grid cell. -/
def updateRoomSize (fp : FloorPlan) (id : String) (newWidth newHeight : ℚ) : FloorPlan :=
  let limitedWidth := min newWidth fp.gridSizeWidth
  let limitedHeight := min newHeight fp.gridSizeHeight
  { fp with rooms := fp.rooms.map (fun room =>
      if room.id == id then { room with width := limitedWidth, height := limitedHeight }
      else room) }

/-- `deleteRoom` (FloorPlanCanvas.tsx:642).  Note: the severance step
iterates `room.portals`, the deprecated legacy list, not `room.walls`
where graph-based portal walls are stored. -/
def deleteRoom (fp : FloorPlan) (roomId : String) : FloorPlan :=
  let updatedRooms := (fp.rooms.filter (fun room => room.id != roomId)).map (fun room =>
    let updatedPortals := room.portals.map (fun portal =>
      if portal.connectedRoomId == some roomId then
        { portal with connectedRoomId := none, connectedPortalId := none }
      else portal)
    { room with portals := updatedPortals })
  { fp with rooms := updatedRooms }

/-- The JS snap-to-existing-vertex scan shared by the wall / portal
creation paths: the loop `if (distance < 10) { endVertex = vertex; }`
has no `break`, so the LAST vertex within the tolerance wins. -/
def lastVertexNear (vertices : List Vertex) (px py : ℚ) : Option Vertex :=
  (vertices.filter (fun v => distSq v px py < 100)).getLast?

/-- `addWallToRoom` (FloorPlanCanvas.tsx:695).  The generated wall and
vertex uuids are explicit parameters; the minimum-length gate lives in
the caller, not here. -/
def addWallToRoom (fp : FloorPlan) (roomId : String) (startVertexId : Option String)
    (startX startY endX endY : ℚ) (wallId newStartId newEndId : String) : FloorPlan :=
  let updatedRooms := fp.rooms.map (fun room =>
    if room.id == roomId then
      let startVertex0 : Option Vertex :=
        match startVertexId with
        | some svid => room.vertices.find? (fun v => v.id == svid)
        | none => none
      let endVertex0 : Option Vertex := lastVertexNear room.vertices endX endY
      let startVertex := startVertex0.getD { id := newStartId, x := startX, y := startY }
      let endVertex := endVertex0.getD { id := newEndId, x := endX, y := endY }
      let newVertices : List Vertex :=
        (if startVertex0.isNone then [startVertex] else []) ++
        (if endVertex0.isNone then [endVertex] else [])
      let newWall : Wall := { id := wallId, vertexIds := [startVertex.id, endVertex.id] }
      { room with walls := room.walls ++ [newWall],
                  vertices := room.vertices ++ newVertices }
    else room)
  { fp with rooms := updatedRooms }

/-- The portal-drawing gesture state held by the component while a
portal edge is being drawn (`portalStartPoint` + `portalPreview`). -/
structure PortalDrawState where
  roomId : String
  startVertexId : Option String
  startX : ℚ
  startY : ℚ
  endX : ℚ
  endY : ℚ
deriving DecidableEq, Repr

/-- The pending portal connection held between the two phases of portal
creation (`pendingPortalConnection` in FloorPlanCanvas.tsx). -/
structure PendingPortalConnection where
  sourceRoomId : String
  portalId : String
  vertices : List (ℚ × ℚ)
deriving DecidableEq, Repr

/-- `handlePortalDrawingEnd` (FloorPlanCanvas.tsx:1526): commits the
unconnected source portal when the drawn edge is longer than 10 units
and records the pending connection.  Generated uuids are parameters.
Returns the updated plan and the new `pendingPortalConnection`. -/
def handlePortalDrawingEnd (fp : FloorPlan) (st : PortalDrawState)
    (portalId newStartId newEndId : String) :
    FloorPlan × Option PendingPortalConnection :=
  let dx := st.endX - st.startX
  let dy := st.endY - st.startY
  if dx * dx + dy * dy > 100 then
    let updatedRooms := fp.rooms.map (fun room =>
      if room.id == st.roomId then
        let startVertex0 : Option Vertex :=
          match st.startVertexId with
          | some svid => room.vertices.find? (fun v => v.id == svid)
          | none => none
        let endVertex0 : Option Vertex := lastVertexNear room.vertices st.endX st.endY
        let startVertex :=
          match startVertex0 with
          | some v => { v with isPortalVertex := true }
          | none => { id := newStartId, x := st.startX, y := st.startY, isPortalVertex := true }
        let endVertex :=
          match endVertex0 with
          | some v => { v with isPortalVertex := true }
          | none => { id := newEndId, x := st.endX, y := st.endY, isPortalVertex := true }
        let newVertices : List Vertex :=
          (if startVertex0.isNone then [startVertex] else []) ++
          (if endVertex0.isNone then [endVertex] else [])
        let newPortal : Wall :=
          { id := portalId, vertexIds := [startVertex.id, endVertex.id],
            isPortal := true, connectedRoomId := none, connectedPortalId := none }
        let updatedVertices := room.vertices.map (fun v =>
          if v.id == startVertex.id && !v.isPortalVertex then { v with isPortalVertex := true }
          else if v.id == endVertex.id && !v.isPortalVertex then { v with isPortalVertex := true }
          else v)
        let finalVertices :=
          (updatedVertices.filter (fun v => !(newVertices.any (fun nv => nv.id == v.id)))) ++
          newVertices
        { room with walls := room.walls ++ [newPortal], vertices := finalVertices }
      else room)
    let updatedFloorPlan := { fp with rooms := updatedRooms }
    (updatedFloorPlan,
     some { sourceRoomId := st.roomId, portalId := portalId,
            vertices := [(st.startX, st.startY), (st.endX, st.endY)] })
  else
    (fp, none)

/-- `handleRoomClickForPortalConnection` (FloorPlanCanvas.tsx:1663):
phase two of portal creation.  Rescales the pending source endpoints by
the target room's dimensions, creates the mirror portal (generated
uuids are parameters) and links both portals symmetrically. -/
def handleRoomClickForPortalConnection (fp : FloorPlan)
    (pending : PendingPortalConnection) (targetRoomId : String)
    (mirrorPortalId mirrorStartVertexId mirrorEndVertexId : String) : FloorPlan :=
  if targetRoomId == pending.sourceRoomId then fp
  else
    match fp.rooms.find? (fun r => r.id == pending.sourceRoomId),
          fp.rooms.find? (fun r => r.id == targetRoomId) with
    | some sourceRoom, some targetRoom =>
      match sourceRoom.walls.find? (fun w => w.id == pending.portalId) with
      | none => fp
      | some _sourcePortal =>
        match pending.vertices with
        | startPoint :: endPoint :: _ =>
          let relStartX := startPoint.1 / sourceRoom.width
          let relStartY := startPoint.2 / sourceRoom.height
          let relEndX := endPoint.1 / sourceRoom.width
          let relEndY := endPoint.2 / sourceRoom.height
          let targetStartX := relStartX * targetRoom.width
          let targetStartY := relStartY * targetRoom.height
          let targetEndX := relEndX * targetRoom.width
          let targetEndY := relEndY * targetRoom.height
          let updatedRooms := fp.rooms.map (fun room =>
            if room.id == pending.sourceRoomId then
              { room with walls := room.walls.map (fun wall =>
                  if wall.id == pending.portalId then
                    { wall with connectedRoomId := some targetRoomId,
                                connectedPortalId := some mirrorPortalId }
                  else wall) }
            else if room.id == targetRoomId then
              let mirrorStartVertex : Vertex :=
                { id := mirrorStartVertexId, x := targetStartX, y := targetStartY,
                  isPortalVertex := true }
              let mirrorEndVertex : Vertex :=
                { id := mirrorEndVertexId, x := targetEndX, y := targetEndY,
                  isPortalVertex := true }
              let mirrorPortal : Wall :=
                { id := mirrorPortalId, vertexIds := [mirrorStartVertexId, mirrorEndVertexId],
                  isPortal := true, connectedRoomId := some pending.sourceRoomId,
                  connectedPortalId := some pending.portalId }
              { room with walls := room.walls ++ [mirrorPortal],
                          vertices := room.vertices ++ [mirrorStartVertex, mirrorEndVertex] }
            else room)
          { fp with rooms := updatedRooms }
        | _ => fp
    | _, _ => fp

/-- The connection data collected by `handleVertexDrag` when the dragged
vertex terminates a portal with an active connection
(`connectedPortalInfo`, FloorPlanCanvas.tsx:1041). -/
structure ConnectedPortalInfo where
  sourceRoomId : String
  sourcePortalId : String
  targetRoomId : String
  targetPortalId : String
  draggedVertexIndex : ℕ
deriving DecidableEq, Repr

/-- The portal scan of `handleVertexDrag` (FloorPlanCanvas.tsx:1052):
walk the room's walls; for the first portal wall containing the vertex
whose links resolve to an existing room and portal, record the
connection info.  When the links do not resolve the loop continues. -/
def findConnectedPortalInfo (fp : FloorPlan) (room : Room) (vertexId : String) :
    List Wall → Option ConnectedPortalInfo
  | [] => none
  | wall :: rest =>
    if wall.vertexIds.contains vertexId && wall.isPortal then
      match wall.connectedRoomId, wall.connectedPortalId with
      | some crid, some cpid =>
        match fp.rooms.find? (fun r => r.id == crid) with
        | some targetRoom =>
          match targetRoom.walls.find? (fun w => w.id == cpid) with
          | some targetPortal =>
            some { sourceRoomId := room.id, sourcePortalId := wall.id,
                   targetRoomId := targetRoom.id, targetPortalId := targetPortal.id,
                   draggedVertexIndex := wall.vertexIds.indexOf vertexId }
          | none => findConnectedPortalInfo fp room vertexId rest
        | none => findConnectedPortalInfo fp room vertexId rest
      | _, _ => findConnectedPortalInfo fp room vertexId rest
    else findConnectedPortalInfo fp room vertexId rest

/-- The merge scan of `handleVertexDrag` (FloorPlanCanvas.tsx:1087):
the first vertex other than the dragged one within 15 units of the drop
position (the loop breaks on the first hit). -/
def findMergeTarget (vertices : List Vertex) (vertexId : String) (newX newY : ℚ) :
    Option Vertex :=
  vertices.find? (fun v => v.id != vertexId && distSq v newX newY < 225)

/-- The JS duplicate collapse
`ids.filter((vid, index) => ids.indexOf(vid) === index)`:
keep each id's first occurrence, preserving order. -/
def jsDedup (ids : List String) : List String :=
  (ids.enum.filter (fun p => ids.indexOf p.2 == p.1)).map (fun p => p.2)

/-- The merge rewrite applied to one wall (FloorPlanCanvas.tsx:1104):
replace the dragged vertex id, collapse duplicates, drop the wall if
fewer than 2 distinct ids remain. -/
def mergeWall (vertexId targetId : String) (wall : Wall) : Option Wall :=
  if wall.vertexIds.contains vertexId then
    let updatedVertexIds := wall.vertexIds.map (fun vid => if vid == vertexId then targetId else vid)
    let uniqueVertexIds := jsDedup updatedVertexIds
    if uniqueVertexIds.length < 2 then none
    else some { wall with vertexIds := uniqueVertexIds }
  else some wall

/-- `handleVertexDrag` (FloorPlanCanvas.tsx:1032).  Merge is checked
before plain move; a merged drag updates only the source room (the
connected-portal case of the merge branch maps the other rooms through
unchanged); a plain move of a connected portal endpoint mirrors the
relative displacement onto the paired endpoint. -/
def handleVertexDrag (fp : FloorPlan) (roomId vertexId : String) (newX newY : ℚ) : FloorPlan :=
  match fp.rooms.find? (fun r => r.id == roomId) with
  | none => fp
  | some room =>
    match room.vertices.find? (fun v => v.id == vertexId) with
    | none => fp
    | some draggedVertex =>
      let connectedPortalInfo : Option ConnectedPortalInfo :=
        if draggedVertex.isPortalVertex then
          findConnectedPortalInfo fp room vertexId room.walls
        else none
      match findMergeTarget room.vertices vertexId newX newY with
      | some targetVertex =>
        let updatedWalls := room.walls.filterMap (mergeWall vertexId targetVertex.id)
        let updatedVertices := room.vertices.filter (fun v => v.id != vertexId)
        -- the JS merge branch builds the same room mapping whether or not
        -- connectedPortalInfo is set (the connected room is left as-is)
        { fp with rooms := fp.rooms.map (fun r =>
            if r.id == roomId then
              { r with walls := updatedWalls, vertices := updatedVertices }
            else r) }
      | none =>
        match connectedPortalInfo with
        | some info =>
          match fp.rooms.find? (fun r => r.id == info.targetRoomId) with
          | none =>
            { fp with rooms := fp.rooms.map (fun r =>
                if r.id == roomId then
                  { r with vertices := r.vertices.map (fun v =>
                      if v.id == vertexId then { v with x := newX, y := newY } else v) }
                else r) }
          | some targetRoom =>
            match room.vertices.find? (fun v => v.id == vertexId) with
            | none => fp
            | some oldVertex =>
              let relativeXMovement := (newX - oldVertex.x) / room.width
              let relativeYMovement := (newY - oldVertex.y) / room.height
              match targetRoom.walls.find? (fun w => w.id == info.targetPortalId) with
              | none => fp
              | some targetPortal =>
                match targetPortal.vertexIds.get? info.draggedVertexIndex with
                | none => fp
                | some targetVertexId =>
                  match targetRoom.vertices.find? (fun v => v.id == targetVertexId) with
                  | none => fp
                  | some targetPortalVertex =>
                    let targetXMovement := relativeXMovement * targetRoom.width
                    let targetYMovement := relativeYMovement * targetRoom.height
                    let newTargetX := targetPortalVertex.x + targetXMovement
                    let newTargetY := targetPortalVertex.y + targetYMovement
                    { fp with rooms := fp.rooms.map (fun r =>
                        if r.id == roomId then
                          { r with vertices := r.vertices.map (fun v =>
                              if v.id == vertexId then { v with x := newX, y := newY } else v) }
                        else if r.id == targetRoom.id then
                          { r with vertices := r.vertices.map (fun v =>
                              if v.id == targetVertexId then
                                { v with x := newTargetX, y := newTargetY }
                              else v) }
                        else r) }
        | none =>
          { fp with rooms := fp.rooms.map (fun r =>
              if r.id == roomId then
                { r with vertices := r.vertices.map (fun v =>
                    if v.id == vertexId then { v with x := newX, y := newY } else v) }
              else r) }

/-- `handleWallDelete` (FloorPlanCanvas.tsx:1305): delete a wall and its
now-unused endpoint vertices; when the wall is a connected portal also
delete the paired portal (and its unused vertices) in the other room. -/
def handleWallDelete (fp : FloorPlan) (roomId wallId : String) : FloorPlan :=
  match fp.rooms.find? (fun r => r.id == roomId) with
  | none => fp
  | some roomToUpdate =>
    match roomToUpdate.walls.find? (fun w => w.id == wallId) with
    | none => fp
    | some wallToDelete =>
      let isPortalWithConnection := wallToDelete.isPortal &&
        wallToDelete.connectedRoomId.isSome && wallToDelete.connectedPortalId.isSome
      let usageCount (walls : List Wall) (vid : String) : ℕ :=
        (walls.map (fun w => w.vertexIds.count vid)).sum
      let updatedRooms := fp.rooms.map (fun room =>
        if room.id == roomId then
          let unusedVertexIds := wallToDelete.vertexIds.filter
            (fun vid => usageCount room.walls vid == 1)
          let updatedWalls := room.walls.filter (fun w => w.id != wallId)
          let updatedVertices := room.vertices.filter
            (fun v => !(unusedVertexIds.contains v.id))
          { room with walls := updatedWalls, vertices := updatedVertices }
        else if isPortalWithConnection && wallToDelete.connectedRoomId == some room.id then
          match wallToDelete.connectedPortalId with
          | none => room
          | some connectedPortalId =>
            match room.walls.find? (fun w => w.id == connectedPortalId) with
            | none => room
            | some connectedPortal =>
              let unusedVertexIds := connectedPortal.vertexIds.filter
                (fun vid => usageCount room.walls vid == 1)
              let updatedWalls := room.walls.filter (fun w => w.id != connectedPortalId)
              let updatedVertices := room.vertices.filter
                (fun v => !(unusedVertexIds.contains v.id))
              { room with walls := updatedWalls, vertices := updatedVertices }
        else room)
      { fp with rooms := updatedRooms }

/-- The undo/redo component state of `App.tsx`: the retained snapshots
and the cursor (an integer because it starts at `-1`). -/
structure HistoryState where
  history : List FloorPlan
  historyIndex : ℤ
deriving DecidableEq, Repr

/-- `addToHistory` (App.tsx:94): truncate the redo branch, skip
duplicates of the entry at the cursor (the JS code compares
`JSON.stringify` images, which on these plain records coincides with
structural equality), append, cap at 50 dropping the oldest. -/
def addToHistory (st : HistoryState) (newFloorPlan : FloorPlan) : HistoryState :=
  let newHistory := st.history.take (st.historyIndex + 1).toNat
  let isDuplicate :=
    match newHistory.getLast? with
    | some last => last == newFloorPlan
    | none => false
  if isDuplicate then st
  else
    let pushed := newHistory ++ [newFloorPlan]
    let capped := if pushed.length > 50 then pushed.tail else pushed
    { history := capped, historyIndex := (capped.length : ℤ) - 1 }

/-- JS `value || default` on a number: `0` is falsy. -/
def jsOrDefault (q d : ℚ) : ℚ := if q = 0 then d else q

/-- `importFloorPlan` (App.tsx:135): normalize an imported plan,
deriving missing (JS-falsy) `gridX`/`gridY` from the world position.
`Array.isArray(rooms)` always holds in the embedding, where `rooms` is
a list by construction. -/
def importFloorPlan (importedFloorPlan : FloorPlan) : FloorPlan :=
  { gridSizeWidth := jsOrDefault importedFloorPlan.gridSizeWidth 100,
    gridSizeHeight := jsOrDefault importedFloorPlan.gridSizeHeight 100,
    rooms := importedFloorPlan.rooms.map (fun room =>
      { room with
        gridX := if room.gridX = 0 then
            ⌊room.x / jsOrDefault importedFloorPlan.gridSizeWidth 100⌋
          else room.gridX,
        gridY := if room.gridY = 0 then
            ⌊room.y / jsOrDefault importedFloorPlan.gridSizeHeight 100⌋
          else room.gridY }) }

/-- `handleExport` (App.tsx:152) serializes the floor plan with
`JSON.stringify`; re-parsing (`FloorPlanToolbar.handleFileChange`,
`JSON.parse`) transports the value unchanged — `stringify`/`parse` of a
plain record is value-faithful — so at the value level export followed
by parse is the identity on the floor plan. -/
def handleExport (fp : FloorPlan) : FloorPlan := fp

/-! ## Serialization round-trip (C9) -/

/-- A sample floor plan satisfying the §3 validity invariants, used to
witness the round-trip theorem. -/
def roundTripSample : FloorPlan :=
  { gridSizeWidth := 100, gridSizeHeight := 100,
    rooms := [
      { id := "room-s1", x := 0, y := 0, width := 100, height := 100,
        name := "Room 1", color := "#abcdef", gridX := 0, gridY := 0 },
      { id := "room-s2", x := 200, y := -100, width := 80, height := 100,
        name := "Room 2", color := "#123456", gridX := 2, gridY := -1 }] }

/-- C9.  Serialization round-trip: for a valid floor plan (positive
grid sizes, `x = gridX * gridSizeWidth`, `y = gridY * gridSizeHeight`),
importing the exported value yields the original floor plan field for
field; in particular the falsy-`gridX`/`gridY` re-derivation
`floor (x / gridSizeWidth)` reproduces the original cell. -/
theorem import_export_round_trip (fp : FloorPlan)
    (hw : 0 < fp.gridSizeWidth) (hh : 0 < fp.gridSizeHeight)
    (hxy : ∀ r ∈ fp.rooms, r.x = (r.gridX : ℚ) * fp.gridSizeWidth ∧
      r.y = (r.gridY : ℚ) * fp.gridSizeHeight) :
    importFloorPlan (handleExport fp) = fp := by
  have hw' : fp.gridSizeWidth ≠ 0 := ne_of_gt hw
  have hh' : fp.gridSizeHeight ≠ 0 := ne_of_gt hh
  unfold importFloorPlan handleExport
  simp only [jsOrDefault, if_neg hw', if_neg hh']
  have hmap : fp.rooms.map (fun room =>
      { room with
        gridX := if room.gridX = 0 then ⌊room.x / fp.gridSizeWidth⌋ else room.gridX,
        gridY := if room.gridY = 0 then ⌊room.y / fp.gridSizeHeight⌋ else room.gridY }) =
      fp.rooms := by
    have hid : ∀ r ∈ fp.rooms, (fun room =>
        { room with
          gridX := if room.gridX = 0 then ⌊room.x / fp.gridSizeWidth⌋ else room.gridX,
          gridY := if room.gridY = 0 then ⌊room.y / fp.gridSizeHeight⌋ else room.gridY }) r =
        id r := by
      intro r hr
      obtain ⟨hx, hy⟩ := hxy r hr
      have hgx : (if r.gridX = 0 then ⌊r.x / fp.gridSizeWidth⌋ else r.gridX) = r.gridX := by
        split
        · rw [hx, mul_div_cancel_right₀ _ hw', Int.floor_intCast]
        · rfl
      have hgy : (if r.gridY = 0 then ⌊r.y / fp.gridSizeHeight⌋ else r.gridY) = r.gridY := by
        split
        · rw [hy, mul_div_cancel_right₀ _ hh', Int.floor_intCast]
        · rfl
      simp only [hgx, hgy, id]
    rw [List.map_congr_left hid, List.map_id]
  rw [hmap]

/-- Round-trip witness at a concrete valid plan exercising both the
kept-`gridX` and the re-derived (`gridX = 0`) paths. -/
theorem import_export_round_trip_witness :
    importFloorPlan (handleExport roundTripSample) = roundTripSample :=
  import_export_round_trip roundTripSample (by norm_num [roundTripSample])
    (by norm_num [roundTripSample]) (by norm_num [roundTripSample])

/-! ## History record semantics (C8) -/

/-- Stated from the claim: the entry the history cursor currently
points at. -/
def entryAtCursor (st : HistoryState) : Option FloorPlan :=
  if 0 ≤ st.historyIndex then st.history[st.historyIndex.toNat]? else none

/-- The claim's description of `record`, stated independently of the
code: a no-op on a snapshot equal to the entry at the cursor; otherwise
discard the entries beyond the cursor, append the snapshot, advance the
cursor to it, and drop the oldest entry when the total would exceed
50. -/
def recordSpec (st : HistoryState) (newState : FloorPlan) : HistoryState :=
  if entryAtCursor st = some newState then st
  else
    let kept := st.history.take (st.historyIndex + 1).toNat
    let appended := kept ++ [newState]
    let final := if appended.length > 50 then appended.drop 1 else appended
    { history := final, historyIndex := (final.length : ℤ) - 1 }

lemma getLast?_tail_concat {α : Type} (l : List α) (a : α) (h : l ≠ []) :
    ((l ++ [a]).tail).getLast? = some a := by
  cases l with
  | nil => exact absurd rfl h
  | cons x xs =>
    show (xs ++ [a]).getLast? = some a
    exact List.getLast?_concat _

lemma addToHistory_dup (st : HistoryState) (fp : FloorPlan)
    (h : (st.history.take (st.historyIndex + 1).toNat).getLast? = some fp) :
    addToHistory st fp = st := by
  simp [addToHistory, h]

lemma addToHistory_push (st : HistoryState) (fp : FloorPlan)
    (h : (st.history.take (st.historyIndex + 1).toNat).getLast? ≠ some fp) :
    addToHistory st fp =
      { history := if (st.history.take (st.historyIndex + 1).toNat ++ [fp]).length > 50
          then (st.history.take (st.historyIndex + 1).toNat ++ [fp]).tail
          else st.history.take (st.historyIndex + 1).toNat ++ [fp],
        historyIndex := ((if (st.history.take (st.historyIndex + 1).toNat ++ [fp]).length > 50
          then (st.history.take (st.historyIndex + 1).toNat ++ [fp]).tail
          else st.history.take (st.historyIndex + 1).toNat ++ [fp]).length : ℤ) - 1 } := by
  rcases hk : (st.history.take (st.historyIndex + 1).toNat).getLast? with _ | last
  · simp [addToHistory, hk]
  · have hne : last ≠ fp := fun hc => h (hk.trans (by rw [hc]))
    have hbeq : (last == fp) = false := beq_eq_false_iff_ne.mpr hne
    simp [addToHistory, hk, hbeq]

lemma addToHistory_twice (st : HistoryState) (fp : FloorPlan) :
    addToHistory (addToHistory st fp) fp = addToHistory st fp := by
  by_cases hd : (st.history.take (st.historyIndex + 1).toNat).getLast? = some fp
  · rw [addToHistory_dup st fp hd, addToHistory_dup st fp hd]
  · rw [addToHistory_push st fp hd]
    set pushed := st.history.take (st.historyIndex + 1).toNat ++ [fp] with hpushed
    set capped := if pushed.length > 50 then pushed.tail else pushed with hcapped
    apply addToHistory_dup
    show (capped.take ((capped.length : ℤ) - 1 + 1).toNat).getLast? = some fp
    have h1 : (((capped.length : ℤ) - 1) + 1).toNat = capped.length := by omega
    rw [h1, List.take_length]
    rw [hcapped]
    by_cases hlen : pushed.length > 50
    · have hkne : st.history.take (st.historyIndex + 1).toNat ≠ [] := by
        intro hnil
        rw [hpushed, hnil] at hlen
        simp at hlen
      rw [if_pos hlen, hpushed]
      exact getLast?_tail_concat _ fp hkne
    · rw [if_neg hlen, hpushed]
      exact List.getLast?_concat _

/-- C8.  `addToHistory` implements the claim's `record` semantics: with
the cursor in range, a snapshot equal to the entry at the cursor is a
no-op (history and cursor unchanged), otherwise the redo branch is
discarded, the snapshot appended, the cursor advanced, and the oldest
entry dropped past 50 retained entries; and recording the same value
twice in a row adds exactly one entry. -/
theorem record_history_semantics (st : HistoryState) (fp : FloorPlan)
    (h0 : 0 ≤ st.historyIndex) (hlt : st.historyIndex < (st.history.length : ℤ)) :
    addToHistory st fp = recordSpec st fp ∧
    addToHistory (addToHistory st fp) fp = addToHistory st fp := by
  refine ⟨?_, addToHistory_twice st fp⟩
  have hlen : st.historyIndex.toNat < st.history.length := by omega
  have hgl : (st.history.take (st.historyIndex + 1).toNat).getLast? =
      st.history[st.historyIndex.toNat]? := by
    have hn : (st.historyIndex + 1).toNat = st.historyIndex.toNat + 1 := by omega
    have hmin : (st.historyIndex.toNat + 1) ⊓ st.history.length =
        st.historyIndex.toNat + 1 := min_eq_left (by omega)
    rw [hn, List.getLast?_eq_getElem?, List.length_take, hmin]
    simp [List.getElem?_take]
  have hcur : entryAtCursor st = st.history[st.historyIndex.toNat]? := by
    unfold entryAtCursor
    rw [if_pos h0]
  by_cases hd : (st.history.take (st.historyIndex + 1).toNat).getLast? = some fp
  · have heq : entryAtCursor st = some fp := by rw [hcur, ← hgl]; exact hd
    rw [addToHistory_dup st fp hd]
    unfold recordSpec
    rw [if_pos heq]
  · have hne : ¬(entryAtCursor st = some fp) := by rw [hcur, ← hgl]; exact hd
    rw [addToHistory_push st fp hd]
    unfold recordSpec
    rw [if_neg hne]
    simp only [List.drop_one]

/-- Two structurally different snapshots for the history witness. -/
def historySampleA : FloorPlan :=
  { gridSizeWidth := 100, gridSizeHeight := 100, rooms := [] }

/-- Second history witness snapshot, differing from the first. -/
def historySampleB : FloorPlan :=
  { gridSizeWidth := 200, gridSizeHeight := 100, rooms := [] }

/-- Witness for the history record semantics at a concrete state. -/
theorem record_history_semantics_witness :
    addToHistory ⟨[historySampleA], 0⟩ historySampleB =
        recordSpec ⟨[historySampleA], 0⟩ historySampleB ∧
      addToHistory (addToHistory ⟨[historySampleA], 0⟩ historySampleB) historySampleB =
        addToHistory ⟨[historySampleA], 0⟩ historySampleB :=
  record_history_semantics ⟨[historySampleA], 0⟩ historySampleB (by decide) (by decide)

/-! ## Portal connection rescaling (C3) -/

/-- C3.  Connecting a pending portal with source-room-local endpoints
`(x0,y0)`, `(x1,y1)` to a different room `B` creates in `B` exactly one
new portal wall and two new vertices at the source endpoints rescaled
by `B`'s dimensions, endpoint order preserved. -/
theorem portal_connection_rescaling (fp : FloorPlan)
    (pending : PendingPortalConnection) (targetRoomId : String)
    (mirrorPortalId mirrorStartVertexId mirrorEndVertexId : String)
    (sourceRoom targetRoom : Room) (x0 y0 x1 y1 : ℚ)
    (hv : pending.vertices = [(x0, y0), (x1, y1)])
    (hne : targetRoomId ≠ pending.sourceRoomId)
    (hs : fp.rooms.find? (fun r => r.id == pending.sourceRoomId) = some sourceRoom)
    (ht : fp.rooms.find? (fun r => r.id == targetRoomId) = some targetRoom)
    (hp : (sourceRoom.walls.find? (fun w => w.id == pending.portalId)).isSome) :
    ∃ rB ∈ (handleRoomClickForPortalConnection fp pending targetRoomId
        mirrorPortalId mirrorStartVertexId mirrorEndVertexId).rooms,
      rB.id = targetRoomId ∧
      rB.walls = targetRoom.walls ++
        [{ id := mirrorPortalId, vertexIds := [mirrorStartVertexId, mirrorEndVertexId],
           isPortal := true, connectedRoomId := some pending.sourceRoomId,
           connectedPortalId := some pending.portalId }] ∧
      rB.vertices = targetRoom.vertices ++
        [{ id := mirrorStartVertexId, x := x0 / sourceRoom.width * targetRoom.width,
           y := y0 / sourceRoom.height * targetRoom.height, isPortalVertex := true },
         { id := mirrorEndVertexId, x := x1 / sourceRoom.width * targetRoom.width,
           y := y1 / sourceRoom.height * targetRoom.height, isPortalVertex := true }] := by
  have hbne : (targetRoomId == pending.sourceRoomId) = false := beq_eq_false_iff_ne.mpr hne
  obtain ⟨pw, hw⟩ := Option.isSome_iff_exists.mp hp
  have htmem : targetRoom ∈ fp.rooms := List.mem_of_find?_eq_some ht
  have htid : targetRoom.id = targetRoomId := by
    have := List.find?_some ht
    simpa using this
  have htsrc : (targetRoom.id == pending.sourceRoomId) = false := by
    rw [htid]; exact hbne
  have htself : (targetRoom.id == targetRoomId) = true := by
    rw [htid]; exact beq_self_eq_true _
  unfold handleRoomClickForPortalConnection
  simp only [hbne, Bool.false_eq_true, if_false, hs, ht, hw, hv]
  refine ⟨_, List.mem_map_of_mem _ htmem, ?_⟩
  simp only [htsrc, Bool.false_eq_true, if_false, htself, if_true]
  simp [htid]

/-- Source room for the rescaling witness: 1000×1000 with an
unconnected portal drawn from (10,10) to (10,50), as in the spec's
example scenario. -/
def c3SourceRoom : Room :=
  { id := "room-a3", x := 0, y := 0, width := 1000, height := 1000,
    name := "Room A", color := "#aa0000",
    walls := [{ id := "portal-a3", vertexIds := ["vx-a3-1", "vx-a3-2"], isPortal := true }],
    vertices := [
      { id := "vx-a3-1", x := 10, y := 10, isPortalVertex := true },
      { id := "vx-a3-2", x := 10, y := 50, isPortalVertex := true }],
    gridX := 0, gridY := 0 }

/-- Target room for the rescaling witness: 2000×1000, empty graph. -/
def c3TargetRoom : Room :=
  { id := "room-b3", x := 2000, y := 0, width := 2000, height := 1000,
    name := "Room B", color := "#00aa00", gridX := 1, gridY := 0 }

/-- Floor plan holding the two rescaling-witness rooms. -/
def c3Plan : FloorPlan :=
  { gridSizeWidth := 2000, gridSizeHeight := 1000, rooms := [c3SourceRoom, c3TargetRoom] }

/-- Witness: connecting the (10,10)-(10,50) portal of the 1000×1000
room to the 2000×1000 room puts the mirror endpoints at (20,10) and
(20,50). -/
theorem portal_connection_rescaling_witness :
    ∃ rB ∈ (handleRoomClickForPortalConnection c3Plan
        ⟨"room-a3", "portal-a3", [(10, 10), (10, 50)]⟩ "room-b3"
        "portal-b3" "vx-b3-1" "vx-b3-2").rooms,
      rB.id = "room-b3" ∧
      rB.walls = [{ id := "portal-b3", vertexIds := ["vx-b3-1", "vx-b3-2"],
                    isPortal := true, connectedRoomId := some "room-a3",
                    connectedPortalId := some "portal-a3" }] ∧
      rB.vertices = [
        { id := "vx-b3-1", x := 20, y := 10, isPortalVertex := true },
        { id := "vx-b3-2", x := 20, y := 50, isPortalVertex := true }] := by
  have h := portal_connection_rescaling c3Plan
    ⟨"room-a3", "portal-a3", [(10, 10), (10, 50)]⟩ "room-b3"
    "portal-b3" "vx-b3-1" "vx-b3-2" c3SourceRoom c3TargetRoom 10 10 10 50
    rfl (by decide) (by decide) (by decide) (by decide)
  obtain ⟨rB, hmem, hid, hwalls, hverts⟩ := h
  refine ⟨rB, hmem, hid, ?_, ?_⟩
  · rw [hwalls]
    norm_num [c3TargetRoom]
  · rw [hverts]
    norm_num [c3SourceRoom, c3TargetRoom]

/-! ## Relative-position preservation on portal endpoint drag (C2) -/

/-- C2.  Dragging endpoint `i` of a connected portal in room A by
`(dx,dy)` (with no merge target within 15 units) moves the same-index
endpoint of the paired portal in room B by exactly
`(dx / A.width * B.width, dy / A.height * B.height)`; the mirrored
endpoint gets a plain coordinate update with no merge detection. -/
theorem portal_drag_relative_mirror (fp : FloorPlan) (roomId vertexId : String)
    (newX newY : ℚ) (room : Room) (dv : Vertex) (info : ConnectedPortalInfo)
    (targetRoom : Room) (targetPortal : Wall) (tvId : String) (tv : Vertex)
    (hroom : fp.rooms.find? (fun r => r.id == roomId) = some room)
    (hdv : room.vertices.find? (fun v => v.id == vertexId) = some dv)
    (hpv : dv.isPortalVertex = true)
    (hinfo : findConnectedPortalInfo fp room vertexId room.walls = some info)
    (hmerge : findMergeTarget room.vertices vertexId newX newY = none)
    (htr : fp.rooms.find? (fun r => r.id == info.targetRoomId) = some targetRoom)
    (htp : targetRoom.walls.find? (fun w => w.id == info.targetPortalId) = some targetPortal)
    (htv : targetPortal.vertexIds.get? info.draggedVertexIndex = some tvId)
    (htvv : targetRoom.vertices.find? (fun v => v.id == tvId) = some tv) :
    handleVertexDrag fp roomId vertexId newX newY =
      { fp with rooms := fp.rooms.map (fun r =>
          if r.id == roomId then
            { r with vertices := r.vertices.map (fun v =>
                if v.id == vertexId then { v with x := newX, y := newY } else v) }
          else if r.id == targetRoom.id then
            { r with vertices := r.vertices.map (fun v =>
                if v.id == tvId then
                  { v with x := tv.x + (newX - dv.x) / room.width * targetRoom.width,
                           y := tv.y + (newY - dv.y) / room.height * targetRoom.height }
                else v) }
          else r) } := by
  unfold handleVertexDrag
  simp only [hroom, hdv, hpv, if_true, hinfo, hmerge, htr, htp, htv, htvv]

/-- 1000×1000 room holding one end of a connected portal pair, for the
drag-mirroring witness. -/
def c2RoomA : Room :=
  { id := "room-a2", x := 0, y := 0, width := 1000, height := 1000,
    name := "Room A", color := "#a2a2a2",
    walls := [{ id := "portal-a2", vertexIds := ["va1", "va2"], isPortal := true,
                connectedRoomId := some "room-b2", connectedPortalId := some "portal-b2" }],
    vertices := [
      { id := "va1", x := 10, y := 10, isPortalVertex := true },
      { id := "va2", x := 10, y := 50, isPortalVertex := true }],
    gridX := 0, gridY := 0 }

/-- 2000×1000 room holding the paired portal, for the drag-mirroring
witness. -/
def c2RoomB : Room :=
  { id := "room-b2", x := 2000, y := 0, width := 2000, height := 1000,
    name := "Room B", color := "#b2b2b2",
    walls := [{ id := "portal-b2", vertexIds := ["vb1", "vb2"], isPortal := true,
                connectedRoomId := some "room-a2", connectedPortalId := some "portal-a2" }],
    vertices := [
      { id := "vb1", x := 20, y := 10, isPortalVertex := true },
      { id := "vb2", x := 20, y := 50, isPortalVertex := true }],
    gridX := 1, gridY := 0 }

/-- Floor plan with the connected portal pair of the drag witness. -/
def c2Plan : FloorPlan :=
  { gridSizeWidth := 2000, gridSizeHeight := 1000, rooms := [c2RoomA, c2RoomB] }

/-- The connection info the drag scan collects in the witness plan. -/
def c2Info : ConnectedPortalInfo :=
  { sourceRoomId := "room-a2", sourcePortalId := "portal-a2",
    targetRoomId := "room-b2", targetPortalId := "portal-b2",
    draggedVertexIndex := 0 }

/-- Witness: dragging endpoint 0 of the connected portal from (10,10)
to (100,200) in the 1000×1000 room moves endpoint 0 of the paired
portal in the 2000×1000 room from (20,10) by (180,190) — the same
displacement normalized by the room sizes. -/
theorem portal_drag_relative_mirror_witness :
    handleVertexDrag c2Plan "room-a2" "va1" 100 200 =
      { c2Plan with rooms := c2Plan.rooms.map (fun r =>
          if r.id == "room-a2" then
            { r with vertices := r.vertices.map (fun v =>
                if v.id == "va1" then { v with x := 100, y := 200 } else v) }
          else if r.id == c2RoomB.id then
            { r with vertices := r.vertices.map (fun v =>
                if v.id == "vb1" then
                  { v with x := 20 + (100 - 10) / c2RoomA.width * c2RoomB.width,
                           y := 10 + (200 - 10) / c2RoomA.height * c2RoomB.height }
                else v) }
          else r) } := by
  have hmerge : findMergeTarget c2RoomA.vertices "va1" 100 200 = none := by
    apply List.find?_eq_none.mpr
    intro v hv
    fin_cases hv <;> norm_num [distSq]
  exact portal_drag_relative_mirror c2Plan "room-a2" "va1" 100 200 c2RoomA
    ⟨"va1", 10, 10, true⟩ c2Info c2RoomB
    { id := "portal-b2", vertexIds := ["vb1", "vb2"], isPortal := true,
      connectedRoomId := some "room-a2", connectedPortalId := some "portal-a2" }
    "vb1" ⟨"vb1", 20, 10, true⟩
    (by decide) (by decide) rfl (by decide) hmerge (by decide) (by decide) rfl (by decide)

/-! ## Frame property of merging a connected portal endpoint (C10) -/

/-- C10.  When a connected portal endpoint is dragged onto a merge
target (within 15 units), the merge changes only the source room's
walls and vertex set; every other room — in particular the connected
room with the paired portal — passes through unchanged, so no mirrored
merge or mirrored move happens. -/
theorem merge_connected_portal_frame (fp : FloorPlan) (roomId vertexId : String)
    (newX newY : ℚ) (room : Room) (dv : Vertex) (info : ConnectedPortalInfo) (t : Vertex)
    (hroom : fp.rooms.find? (fun r => r.id == roomId) = some room)
    (hdv : room.vertices.find? (fun v => v.id == vertexId) = some dv)
    (hpv : dv.isPortalVertex = true)
    (hinfo : findConnectedPortalInfo fp room vertexId room.walls = some info)
    (hmerge : findMergeTarget room.vertices vertexId newX newY = some t)
    (hne : info.targetRoomId ≠ roomId) :
    (∃ ws vs,
      handleVertexDrag fp roomId vertexId newX newY =
        { fp with rooms := fp.rooms.map (fun r =>
            if r.id == roomId then { r with walls := ws, vertices := vs } else r) }) ∧
    ∀ r ∈ fp.rooms, r.id = info.targetRoomId →
      r ∈ (handleVertexDrag fp roomId vertexId newX newY).rooms := by
  have hresult : handleVertexDrag fp roomId vertexId newX newY =
      { fp with rooms := fp.rooms.map (fun r =>
          if r.id == roomId then
            { r with walls := room.walls.filterMap (mergeWall vertexId t.id),
                     vertices := room.vertices.filter (fun v => v.id != vertexId) }
          else r) } := by
    unfold handleVertexDrag
    simp only [hroom, hdv, hpv, if_true, hinfo, hmerge]
  refine ⟨⟨_, _, hresult⟩, ?_⟩
  intro r hr hid
  rw [hresult]
  have hbeq : (r.id == roomId) = false := by
    apply beq_eq_false_iff_ne.mpr
    rw [hid]
    exact hne
  have hfr : (fun r : Room =>
      if r.id == roomId then
        { r with walls := room.walls.filterMap (mergeWall vertexId t.id),
                 vertices := room.vertices.filter (fun v => v.id != vertexId) }
      else r) r = r := by
    simp only [hbeq, Bool.false_eq_true, if_false]
  exact hfr ▸ List.mem_map_of_mem _ hr

/-- Source room for the connected-portal merge witness: the portal
endpoint `va1m` has a merge target `vum` 2 units away. -/
def c10RoomA : Room :=
  { id := "room-a10", x := 0, y := 0, width := 1000, height := 1000,
    name := "Room A", color := "#10aaaa",
    walls := [
      { id := "portal-a10", vertexIds := ["va1m", "va2m"], isPortal := true,
        connectedRoomId := some "room-b10", connectedPortalId := some "portal-b10" },
      { id := "wall-a10", vertexIds := ["vum", "va2m"] }],
    vertices := [
      { id := "va1m", x := 10, y := 10, isPortalVertex := true },
      { id := "va2m", x := 10, y := 50, isPortalVertex := true },
      { id := "vum", x := 20, y := 10 }],
    gridX := 0, gridY := 0 }

/-- Connected room for the merge witness, holding the paired portal. -/
def c10RoomB : Room :=
  { id := "room-b10", x := 1000, y := 0, width := 1000, height := 1000,
    name := "Room B", color := "#10bbbb",
    walls := [{ id := "portal-b10", vertexIds := ["vb1m", "vb2m"], isPortal := true,
                connectedRoomId := some "room-a10", connectedPortalId := some "portal-a10" }],
    vertices := [
      { id := "vb1m", x := 10, y := 10, isPortalVertex := true },
      { id := "vb2m", x := 10, y := 50, isPortalVertex := true }],
    gridX := 1, gridY := 0 }

/-- Floor plan for the connected-portal merge witness. -/
def c10Plan : FloorPlan :=
  { gridSizeWidth := 1000, gridSizeHeight := 1000, rooms := [c10RoomA, c10RoomB] }

/-- The connection info collected for the merge witness drag. -/
def c10Info : ConnectedPortalInfo :=
  { sourceRoomId := "room-a10", sourcePortalId := "portal-a10",
    targetRoomId := "room-b10", targetPortalId := "portal-b10",
    draggedVertexIndex := 0 }

/-- Witness: dragging the connected portal endpoint `va1m` onto the
nearby vertex `vum` merges inside the source room only and leaves the
connected room untouched. -/
theorem merge_connected_portal_frame_witness :
    (∃ ws vs,
      handleVertexDrag c10Plan "room-a10" "va1m" 18 10 =
        { c10Plan with rooms := c10Plan.rooms.map (fun r =>
            if r.id == "room-a10" then { r with walls := ws, vertices := vs } else r) }) ∧
    ∀ r ∈ c10Plan.rooms, r.id = c10Info.targetRoomId →
      r ∈ (handleVertexDrag c10Plan "room-a10" "va1m" 18 10).rooms := by
  have hmerge : findMergeTarget c10RoomA.vertices "va1m" 18 10 =
      some { id := "vum", x := 20, y := 10 } := by
    unfold findMergeTarget c10RoomA
    rw [List.find?_cons_of_neg, List.find?_cons_of_neg, List.find?_cons_of_pos]
    all_goals norm_num [distSq]
    all_goals decide
  exact merge_connected_portal_frame c10Plan "room-a10" "va1m" 18 10 c10RoomA
    ⟨"va1m", 10, 10, true⟩ c10Info ⟨"vum", 20, 10, false⟩
    (by decide) (by decide) rfl (by decide) hmerge (by decide)

/-! ## Vertex merge semantics (C6) -/

/-- Stated from the claim's wording: collapse duplicate ids within a
wall's vertex list, keeping the first occurrence of each id. -/
def collapseKeepFirst : List String → List String
  | [] => []
  | x :: xs => x :: collapseKeepFirst (xs.filter (fun y => y != x))
termination_by l => l.length
decreasing_by
  simp only [List.length_cons]
  exact Nat.lt_succ_of_le (List.length_filter_le _ _)

lemma enumFrom_indexOf_filter (xs : List String) (n : ℕ) (P : String → Bool) :
    ((List.enumFrom n xs).filter (fun p => P p.2 && (xs.indexOf p.2 + n == p.1))).map
        (fun p => p.2) =
      collapseKeepFirst (xs.filter P) := by
  induction xs generalizing n P with
  | nil => simp [collapseKeepFirst]
  | cons y ys ih =>
    have hexp : List.enumFrom n (y :: ys) = (n, y) :: List.enumFrom (n + 1) ys := rfl
    have hhead : (P y && ((y :: ys).indexOf y + n == n)) = P y := by
      simp [List.indexOf_cons]
    have htail : List.filter (fun p => P p.2 && ((y :: ys).indexOf p.2 + n == p.1))
        (List.enumFrom (n + 1) ys) =
        List.filter (fun p => (fun a => (a != y) && P a) p.2 &&
          (ys.indexOf p.2 + (n + 1) == p.1))
        (List.enumFrom (n + 1) ys) := by
      apply List.filter_congr
      intro p hp
      obtain ⟨i, a⟩ := p
      have hi : n + 1 ≤ i := (List.mem_enumFrom hp).1
      by_cases hay : a = y
      · subst hay
        have h0 : (a :: ys).indexOf a = 0 := by simp [List.indexOf_cons]
        have hni : (n == i) = false := beq_eq_false_iff_ne.mpr (by omega)
        simp [h0, hni]
      · have hya : (y == a) = false := beq_eq_false_iff_ne.mpr (Ne.symm hay)
        have haybne : (a != y) = true := by
          simp [bne, beq_eq_false_iff_ne.mpr hay]
        have hidx : (y :: ys).indexOf a = ys.indexOf a + 1 := by
          simp [List.indexOf_cons, hya]
        have harith : ys.indexOf a + 1 + n = ys.indexOf a + (n + 1) := by omega
        simp only [hidx, harith, haybne, Bool.true_and, Bool.and_true]
    rw [hexp, List.filter_cons, hhead]
    by_cases hPy : P y = true
    · rw [if_pos hPy, List.map_cons, htail, ih (n + 1) (fun a => (a != y) && P a)]
      have hfc : (y :: ys).filter P = y :: ys.filter P := List.filter_cons_of_pos hPy
      rw [hfc]
      show y :: collapseKeepFirst (ys.filter fun a => (a != y) && P a) =
        collapseKeepFirst (y :: ys.filter P)
      rw [collapseKeepFirst, List.filter_filter]
    · rw [if_neg hPy, htail, ih (n + 1) (fun a => (a != y) && P a)]
      have hfc : (y :: ys).filter P = ys.filter P :=
        List.filter_cons_of_neg (by simpa using hPy)
      rw [hfc]
      have heq : ys.filter (fun a => (a != y) && P a) = ys.filter P := by
        apply List.filter_congr
        intro a _
        by_cases hay : a = y
        · subst hay
          have : P a = false := by simpa using hPy
          simp [this]
        · have : (a != y) = true := by simp [bne, beq_eq_false_iff_ne.mpr hay]
          simp [this]
      rw [heq]

lemma jsDedup_eq_collapseKeepFirst (l : List String) :
    jsDedup l = collapseKeepFirst l := by
  have h := enumFrom_indexOf_filter l 0 (fun _ => true)
  unfold jsDedup
  have hcong : List.filter (fun p => l.indexOf p.2 == p.1) l.enum =
      List.filter (fun p => (fun _ : String => true) p.2 && (l.indexOf p.2 + 0 == p.1))
        (List.enumFrom 0 l) := by
    apply List.filter_congr
    intro p _
    simp
  rw [hcong, h, List.filter_true]

/-- C6.  When a dragged vertex has another vertex of the same room
within 15 units of the drop point, the merge applies: walls referencing
the dragged vertex are rewritten to the target's id, duplicates
collapse keeping the first occurrence, walls left with fewer than two
distinct ids are removed, and the dragged vertex is removed from the
vertex set. -/
theorem vertex_merge_semantics (fp : FloorPlan) (roomId vertexId : String)
    (newX newY : ℚ) (room : Room) (dv : Vertex)
    (hroom : fp.rooms.find? (fun r => r.id == roomId) = some room)
    (hdv : room.vertices.find? (fun v => v.id == vertexId) = some dv)
    (hnear : ∃ u ∈ room.vertices, u.id ≠ vertexId ∧
      (u.x - newX) * (u.x - newX) + (u.y - newY) * (u.y - newY) < 225) :
    ∃ t ∈ room.vertices, t.id ≠ vertexId ∧
      (t.x - newX) * (t.x - newX) + (t.y - newY) * (t.y - newY) < 225 ∧
      handleVertexDrag fp roomId vertexId newX newY =
        { fp with rooms := fp.rooms.map (fun r =>
            if r.id == roomId then
              { r with
                walls := room.walls.filterMap (fun wall =>
                  if wall.vertexIds.contains vertexId then
                    if (collapseKeepFirst (wall.vertexIds.map
                        (fun vid => if vid == vertexId then t.id else vid))).length < 2 then
                      none
                    else
                      some { wall with vertexIds := collapseKeepFirst (wall.vertexIds.map
                        (fun vid => if vid == vertexId then t.id else vid)) }
                  else some wall),
                vertices := room.vertices.filter (fun v => v.id != vertexId) }
            else r) } := by
  obtain ⟨u, hu, huid, hud⟩ := hnear
  have hpu : (fun v : Vertex => v.id != vertexId && decide (distSq v newX newY < 225)) u
      = true := by
    have h1 : (u.id != vertexId) = true := by simp [bne, beq_eq_false_iff_ne.mpr huid]
    have h2 : decide (distSq u newX newY < 225) = true := by
      rw [decide_eq_true_eq]
      unfold distSq
      exact hud
    simp [h1, h2]
  have hne : findMergeTarget room.vertices vertexId newX newY ≠ none := by
    unfold findMergeTarget
    intro hc
    exact absurd hpu (by simpa using List.find?_eq_none.mp hc u hu)
  obtain ⟨t, hmerge⟩ := Option.ne_none_iff_exists'.mp hne
  have htmem : t ∈ room.vertices := List.mem_of_find?_eq_some hmerge
  have htp := List.find?_some hmerge
  have htid : t.id ≠ vertexId := by
    have := (Bool.and_eq_true _ _).mp htp |>.1
    simpa [bne] using this
  have htd : (t.x - newX) * (t.x - newX) + (t.y - newY) * (t.y - newY) < 225 := by
    have := (Bool.and_eq_true _ _).mp htp |>.2
    have h2 := decide_eq_true_eq.mp this
    unfold distSq at h2
    exact h2
  refine ⟨t, htmem, htid, htd, ?_⟩
  have hmw : mergeWall vertexId t.id = fun wall : Wall =>
      if wall.vertexIds.contains vertexId then
        if (collapseKeepFirst (wall.vertexIds.map
            (fun vid => if vid == vertexId then t.id else vid))).length < 2 then
          none
        else
          some { wall with vertexIds := collapseKeepFirst (wall.vertexIds.map
            (fun vid => if vid == vertexId then t.id else vid)) }
      else some wall := by
    funext wall
    simp only [mergeWall, jsDedup_eq_collapseKeepFirst]
  unfold handleVertexDrag
  simp only [hroom, hdv, hmerge, hmw]

/-- Room for the merge witness: vertex `v6a` is shared by two walls and
has the third vertex `v6t` within 15 units of the drop point. -/
def c6Room : Room :=
  { id := "room-c6", x := 0, y := 0, width := 100, height := 100,
    name := "Room C6", color := "#666666",
    walls := [
      { id := "wall-c6a", vertexIds := ["v6a", "v6w"] },
      { id := "wall-c6b", vertexIds := ["v6a", "v6t"] }],
    vertices := [
      { id := "v6a", x := 0, y := 0 },
      { id := "v6w", x := 100, y := 0 },
      { id := "v6t", x := 5, y := 5 }],
    gridX := 0, gridY := 0 }

/-- Floor plan for the merge witness. -/
def c6Plan : FloorPlan :=
  { gridSizeWidth := 100, gridSizeHeight := 100, rooms := [c6Room] }

/-- Witness: dragging `v6a` (shared by two walls) to (5,8), within 15
units of `v6t`, rewrites both walls to `v6t`, drops the wall collapsing
to a single id, and removes `v6a`. -/
theorem vertex_merge_semantics_witness :
    ∃ t ∈ c6Room.vertices, t.id ≠ "v6a" ∧
      (t.x - 5) * (t.x - 5) + (t.y - 8) * (t.y - 8) < 225 ∧
      handleVertexDrag c6Plan "room-c6" "v6a" 5 8 =
        { c6Plan with rooms := c6Plan.rooms.map (fun r =>
            if r.id == "room-c6" then
              { r with
                walls := c6Room.walls.filterMap (fun wall =>
                  if wall.vertexIds.contains "v6a" then
                    if (collapseKeepFirst (wall.vertexIds.map
                        (fun vid => if vid == "v6a" then t.id else vid))).length < 2 then
                      none
                    else
                      some { wall with vertexIds := collapseKeepFirst (wall.vertexIds.map
                        (fun vid => if vid == "v6a" then t.id else vid)) }
                  else some wall),
                vertices := c6Room.vertices.filter (fun v => v.id != "v6a") }
            else r) } :=
  vertex_merge_semantics c6Plan "room-c6" "v6a" 5 8 c6Room
    { id := "v6a", x := 0, y := 0 } (by decide) (by decide)
    ⟨{ id := "v6t", x := 5, y := 5 }, by decide, by decide, by norm_num⟩

/-! ## Grid cell exclusivity (C4) -/

/-- The room-placement / room-move operation alphabet of the claim.
The generated uuid, display name and random color of a placement are
part of the operation data. -/
inductive RoomOp where
  | place (gridX gridY : ℤ) (newRoomId name color : String)
  | move (roomId : String) (newX newY : ℚ)
deriving DecidableEq, Repr

/-- Apply one operation. -/
def applyRoomOp (fp : FloorPlan) : RoomOp → FloorPlan
  | .place gx gy rid nm c => placeRoomAtGridPosition fp gx gy rid nm c
  | .move rid nx ny => handleRoomDragEnd fp rid nx ny

/-- Apply a sequence of operations, left to right. -/
def applyRoomOps (fp : FloorPlan) : List RoomOp → FloorPlan
  | [] => fp
  | op :: ops => applyRoomOps (applyRoomOp fp op) ops

/-- No two distinct rooms share a grid cell. -/
def cellsExclusive (fp : FloorPlan) : Prop :=
  fp.rooms.Pairwise (fun a b => ¬(a.gridX = b.gridX ∧ a.gridY = b.gridY))

/-- No two rooms share an id (uuid uniqueness, spec §4.3). -/
def idsDistinct (fp : FloorPlan) : Prop :=
  fp.rooms.Pairwise (fun a b => a.id ≠ b.id)

/-- Each placement in the sequence carries a fresh uuid; the embedding
of `room-` + `uuidv4()` generation. -/
def FreshOps : FloorPlan → List RoomOp → Prop
  | _, [] => True
  | fp, op :: ops =>
    (match op with
     | .place _ _ rid _ _ => ∀ r ∈ fp.rooms, r.id ≠ rid
     | .move _ _ _ => True) ∧ FreshOps (applyRoomOp fp op) ops

lemma place_preserves (fp : FloorPlan) (gx gy : ℤ) (rid nm c : String)
    (hfresh : ∀ r ∈ fp.rooms, r.id ≠ rid)
    (hids : idsDistinct fp) (hcells : cellsExclusive fp) :
    idsDistinct (placeRoomAtGridPosition fp gx gy rid nm c) ∧
      cellsExclusive (placeRoomAtGridPosition fp gx gy rid nm c) := by
  unfold placeRoomAtGridPosition
  cases hf : fp.rooms.find? (fun room => room.gridX == gx && room.gridY == gy) with
  | some r => exact ⟨hids, hcells⟩
  | none =>
    have hnone := List.find?_eq_none.mp hf
    constructor
    · unfold idsDistinct
      dsimp only
      rw [List.pairwise_append]
      refine ⟨hids, List.pairwise_singleton _ _, ?_⟩
      intro a ha b hb
      have hb' : b = newRoomAt fp gx gy rid nm c := List.mem_singleton.mp hb
      rw [hb']
      exact hfresh a ha
    · unfold cellsExclusive
      dsimp only
      rw [List.pairwise_append]
      refine ⟨hcells, List.pairwise_singleton _ _, ?_⟩
      intro a ha b hb
      have hb' : b = newRoomAt fp gx gy rid nm c := List.mem_singleton.mp hb
      rw [hb']
      intro hcell
      have := hnone a ha
      apply this
      simp only [Bool.and_eq_true, beq_iff_eq]
      exact ⟨hcell.1, hcell.2⟩

lemma move_preserves (fp : FloorPlan) (rid : String) (nx ny : ℚ)
    (hids : idsDistinct fp) (hcells : cellsExclusive fp) :
    idsDistinct (handleRoomDragEnd fp rid nx ny) ∧
      cellsExclusive (handleRoomDragEnd fp rid nx ny) := by
  unfold handleRoomDragEnd
  cases hf : fp.rooms.find? (fun r => r.id == rid) with
  | none => exact ⟨hids, hcells⟩
  | some room =>
    dsimp only
    by_cases h1 : (room.gridX == jsRound (nx / fp.gridSizeWidth) &&
        room.gridY == jsRound (ny / fp.gridSizeHeight)) = true
    · rw [if_pos h1]
      exact ⟨hids, hcells⟩
    · rw [if_neg h1]
      by_cases h2 : (fp.rooms.any (fun r => r.id != rid &&
          r.gridX == jsRound (nx / fp.gridSizeWidth) &&
          r.gridY == jsRound (ny / fp.gridSizeHeight))) = true
      · rw [if_pos h2]
        exact ⟨hids, hcells⟩
      · rw [if_neg h2]
        have hno : ∀ r ∈ fp.rooms, r.id ≠ rid →
            ¬(r.gridX = jsRound (nx / fp.gridSizeWidth) ∧
              r.gridY = jsRound (ny / fp.gridSizeHeight)) := by
          intro r hr hrne hcell
          apply h2
          rw [List.any_eq_true]
          refine ⟨r, hr, ?_⟩
          simp only [Bool.and_eq_true, bne_iff_ne, beq_iff_eq]
          exact ⟨⟨hrne, hcell.1⟩, hcell.2⟩
        have hidp : ∀ a : Room, ((fun r : Room =>
            if r.id == rid then
              { r with x := (jsRound (nx / fp.gridSizeWidth) : ℚ) * fp.gridSizeWidth,
                       y := (jsRound (ny / fp.gridSizeHeight) : ℚ) * fp.gridSizeHeight,
                       gridX := jsRound (nx / fp.gridSizeWidth),
                       gridY := jsRound (ny / fp.gridSizeHeight) }
            else r) a).id = a.id := by
          intro a
          dsimp only
          split <;> rfl
        constructor
        · unfold idsDistinct
          dsimp only
          rw [List.pairwise_map]
          apply hids.imp
          intro a b hab
          rw [hidp a, hidp b]
          exact hab
        · unfold cellsExclusive
          dsimp only
          rw [List.pairwise_map]
          have hcomb := hcells.and hids
          apply List.Pairwise.imp_of_mem ?_ hcomb
          intro a b ha hb hab
          obtain ⟨hcell, hid⟩ := hab
          by_cases hga : (a.id == rid) = true
          · have hgb : (b.id == rid) = false := by
              rcases Bool.eq_false_or_eq_true (b.id == rid) with h | h
              · exact absurd ((beq_iff_eq.mp hga).trans (beq_iff_eq.mp h).symm) hid
              · exact h
            simp only [hga, if_true, hgb, Bool.false_eq_true, if_false]
            intro hc
            exact hno b hb (fun hbe => by simp [hbe] at hgb) ⟨hc.1.symm, hc.2.symm⟩
          · by_cases hgb : (b.id == rid) = true
            · simp only [hga, Bool.false_eq_true, if_false, hgb, if_true]
              intro hc
              exact hno a ha (fun hae => by simp [hae] at hga) ⟨hc.1, hc.2⟩
            · simp only [hga, hgb, Bool.false_eq_true, if_false]
              exact hcell

lemma applyRoomOps_preserves (ops : List RoomOp) :
    ∀ fp : FloorPlan, idsDistinct fp → cellsExclusive fp → FreshOps fp ops →
      idsDistinct (applyRoomOps fp ops) ∧ cellsExclusive (applyRoomOps fp ops) := by
  induction ops with
  | nil => exact fun fp h1 h2 _ => ⟨h1, h2⟩
  | cons op ops ih =>
    intro fp h1 h2 hfresh
    obtain ⟨hop, hrest⟩ := hfresh
    have hstep : idsDistinct (applyRoomOp fp op) ∧ cellsExclusive (applyRoomOp fp op) := by
      cases op with
      | place gx gy rid nm c => exact place_preserves fp gx gy rid nm c hop h1 h2
      | move rid nx ny => exact move_preserves fp rid nx ny h1 h2
    exact ih (applyRoomOp fp op) hstep.1 hstep.2 hrest

/-- C4.  Grid cell exclusivity: starting from distinct-cell,
distinct-id rooms, every placeRoom/moveRoom sequence (with fresh
placement uuids) keeps all cells distinct; placing onto an occupied
cell creates no room; moving onto a cell occupied by another room
leaves the whole floor plan — every room's `gridX`, `gridY`, `x`,
`y` — unchanged. -/
theorem grid_cell_exclusivity (fp : FloorPlan) (ops : List RoomOp)
    (hids : idsDistinct fp) (hcells : cellsExclusive fp) (hfresh : FreshOps fp ops) :
    cellsExclusive (applyRoomOps fp ops) ∧
    (∀ gx gy rid nm c, (∃ r ∈ fp.rooms, r.gridX = gx ∧ r.gridY = gy) →
      placeRoomAtGridPosition fp gx gy rid nm c = fp) ∧
    (∀ rid nx ny, (∃ r ∈ fp.rooms, r.id ≠ rid ∧
        r.gridX = jsRound (nx / fp.gridSizeWidth) ∧
        r.gridY = jsRound (ny / fp.gridSizeHeight)) →
      handleRoomDragEnd fp rid nx ny = fp) := by
  refine ⟨(applyRoomOps_preserves ops fp hids hcells hfresh).2, ?_, ?_⟩
  · intro gx gy rid nm c ⟨r, hr, hgx, hgy⟩
    unfold placeRoomAtGridPosition
    cases hf : fp.rooms.find? (fun room => room.gridX == gx && room.gridY == gy) with
    | some _ => rfl
    | none =>
      exfalso
      apply List.find?_eq_none.mp hf r hr
      simp only [Bool.and_eq_true, beq_iff_eq]
      exact ⟨hgx, hgy⟩
  · intro rid nx ny ⟨r, hr, hrne, hgx, hgy⟩
    unfold handleRoomDragEnd
    cases hf : fp.rooms.find? (fun q => q.id == rid) with
    | none => rfl
    | some room =>
      dsimp only
      by_cases h1 : (room.gridX == jsRound (nx / fp.gridSizeWidth) &&
          room.gridY == jsRound (ny / fp.gridSizeHeight)) = true
      · rw [if_pos h1]
      · rw [if_neg h1]
        have h2 : (fp.rooms.any (fun q => q.id != rid &&
            q.gridX == jsRound (nx / fp.gridSizeWidth) &&
            q.gridY == jsRound (ny / fp.gridSizeHeight))) = true := by
          rw [List.any_eq_true]
          refine ⟨r, hr, ?_⟩
          simp only [Bool.and_eq_true, bne_iff_ne, beq_iff_eq]
          exact ⟨⟨hrne, hgx⟩, hgy⟩
        rw [if_pos h2]

/-- Plan for the exclusivity witness: two rooms on distinct cells with
distinct ids. -/
def c4Plan : FloorPlan :=
  { gridSizeWidth := 100, gridSizeHeight := 100,
    rooms := [
      newRoomAt ⟨100, 100, []⟩ 0 0 "room-w1" "Room 1" "#111111",
      newRoomAt ⟨100, 100, []⟩ 1 0 "room-w2" "Room 2" "#222222"] }

/-- Operation sequence for the exclusivity witness: one fresh placement
followed by one move. -/
def c4Ops : List RoomOp :=
  [RoomOp.place 2 0 "room-w3" "Room 3" "#333333", RoomOp.move "room-w1" 250 0]

/-- Witness for grid cell exclusivity on a concrete plan and
sequence. -/
theorem grid_cell_exclusivity_witness :
    cellsExclusive (applyRoomOps c4Plan c4Ops) ∧
    (∀ gx gy rid nm c, (∃ r ∈ c4Plan.rooms, r.gridX = gx ∧ r.gridY = gy) →
      placeRoomAtGridPosition c4Plan gx gy rid nm c = c4Plan) ∧
    (∀ rid nx ny, (∃ r ∈ c4Plan.rooms, r.id ≠ rid ∧
        r.gridX = jsRound (nx / c4Plan.gridSizeWidth) ∧
        r.gridY = jsRound (ny / c4Plan.gridSizeHeight)) →
      handleRoomDragEnd c4Plan rid nx ny = c4Plan) :=
  grid_cell_exclusivity c4Plan c4Ops (by unfold idsDistinct; decide)
    (by unfold cellsExclusive; decide) ⟨by decide, trivial, trivial⟩

/-! ## Portal symmetry and deleteRoom severance at a reachable state
(C1, C5)

The following chain builds, by the exposed edit operations from the
empty plan, two rooms joined by a connected portal pair, then deletes
the source room. -/

/-- Empty floor plan on a 1000×1000 grid. -/
def c1Empty : FloorPlan := { gridSizeWidth := 1000, gridSizeHeight := 1000, rooms := [] }

/-- Step 1: place room A at cell (0,0). -/
def c1Step1 : FloorPlan := placeRoomAtGridPosition c1Empty 0 0 "room-A" "Room 1" "#0000aa"

/-- Step 2: place room B at cell (1,0). -/
def c1Step2 : FloorPlan := placeRoomAtGridPosition c1Step1 1 0 "room-B" "Room 2" "#0000bb"

/-- Step 3: draw a portal edge in room A from (10,10) to (10,50). -/
def c1Step3 : FloorPlan × Option PendingPortalConnection :=
  handlePortalDrawingEnd c1Step2 ⟨"room-A", none, 10, 10, 10, 50⟩ "portal-A" "vxa" "vxb"

/-- Step 4: confirm room B as the portal's target. -/
def c1Step4 : FloorPlan :=
  handleRoomClickForPortalConnection c1Step3.1
    ⟨"room-A", "portal-A", [(10, 10), (10, 50)]⟩ "room-B" "portal-B" "vxc" "vxd"

/-- Step 5: delete room A. -/
def c1Final : FloorPlan := deleteRoom c1Step4 "room-A"

/-- Room A as placed. -/
def c1RoomA1 : Room :=
  { id := "room-A", x := 0, y := 0, width := 1000, height := 1000,
    name := "Room 1", color := "#0000aa", gridX := 0, gridY := 0 }

/-- Room B as placed. -/
def c1RoomB1 : Room :=
  { id := "room-B", x := 1000, y := 0, width := 1000, height := 1000,
    name := "Room 2", color := "#0000bb", gridX := 1, gridY := 0 }

/-- Room A after the portal draw: one unconnected portal wall. -/
def c1RoomA2 : Room :=
  { c1RoomA1 with
    walls := [{ id := "portal-A", vertexIds := ["vxa", "vxb"], isPortal := true }],
    vertices := [
      { id := "vxa", x := 10, y := 10, isPortalVertex := true },
      { id := "vxb", x := 10, y := 50, isPortalVertex := true }] }

/-- Room A after the connection: its portal links to room B. -/
def c1RoomA3 : Room :=
  { c1RoomA2 with
    walls := [{ id := "portal-A", vertexIds := ["vxa", "vxb"], isPortal := true,
                connectedRoomId := some "room-B", connectedPortalId := some "portal-B" }] }

/-- Room B after the connection: the mirror portal links back to A. -/
def c1RoomB3 : Room :=
  { c1RoomB1 with
    walls := [{ id := "portal-B", vertexIds := ["vxc", "vxd"], isPortal := true,
                connectedRoomId := some "room-A", connectedPortalId := some "portal-A" }],
    vertices := [
      { id := "vxc", x := 10, y := 10, isPortalVertex := true },
      { id := "vxd", x := 10, y := 50, isPortalVertex := true }] }

lemma c1Step2_eq :
    c1Step2 = { gridSizeWidth := 1000, gridSizeHeight := 1000,
                rooms := [c1RoomA1, c1RoomB1] } := by
  norm_num [c1Step2, c1Step1, c1Empty, placeRoomAtGridPosition, newRoomAt,
    c1RoomA1, c1RoomB1, List.find?] <;> decide

lemma c1Step3_eq :
    c1Step3 = ({ gridSizeWidth := 1000, gridSizeHeight := 1000,
                 rooms := [c1RoomA2, c1RoomB1] },
               some ⟨"room-A", "portal-A", [(10, 10), (10, 50)]⟩) := by
  rw [c1Step3, c1Step2_eq]
  norm_num [handlePortalDrawingEnd, lastVertexNear, distSq, c1RoomA1, c1RoomA2,
    c1RoomB1] <;> decide

lemma c1Step4_eq :
    c1Step4 = { gridSizeWidth := 1000, gridSizeHeight := 1000,
                rooms := [c1RoomA3, c1RoomB3] } := by
  rw [c1Step4, c1Step3_eq]
  have hbne : (("room-B" : String) == "room-A") = false := by decide
  have hs : List.find? (fun r => r.id == "room-A")
      (FloorPlan.mk 1000 1000 [c1RoomA2, c1RoomB1]).rooms = some c1RoomA2 := by decide
  have ht : List.find? (fun r => r.id == "room-B")
      (FloorPlan.mk 1000 1000 [c1RoomA2, c1RoomB1]).rooms = some c1RoomB1 := by decide
  have hw : List.find? (fun w => w.id == "portal-A") c1RoomA2.walls =
      some { id := "portal-A", vertexIds := ["vxa", "vxb"], isPortal := true } := by decide
  unfold handleRoomClickForPortalConnection
  simp only [hbne, Bool.false_eq_true, if_false, hs, ht, hw]
  norm_num [c1RoomA1, c1RoomA2, c1RoomA3, c1RoomB1, c1RoomB3]
  decide

lemma c1Final_eq :
    c1Final = { gridSizeWidth := 1000, gridSizeHeight := 1000, rooms := [c1RoomB3] } := by
  rw [c1Final, c1Step4_eq]
  decide

/-- C1.  Portal symmetry fails on a reachable state: after placing two
rooms, drawing a portal in room A, connecting it to room B (a
symmetric pair at that point) and then deleting room A, room B still
holds a portal with both links non-null pointing at the deleted room —
`deleteRoom` severs only the deprecated `portals` list, not the portal
walls in `walls`. -/
theorem portal_symmetry_broken_by_deleteRoom :
    c1Step3.2 = some ⟨"room-A", "portal-A", [(10, 10), (10, 50)]⟩ ∧
    c1Final.rooms.find? (fun r => r.id == "room-A") = none ∧
    ∃ r ∈ c1Final.rooms, r.id = "room-B" ∧ ∃ w ∈ r.walls, w.isPortal = true ∧
      w.connectedRoomId = some "room-A" ∧ w.connectedPortalId = some "portal-A" := by
  refine ⟨?_, ?_, ?_⟩
  · rw [c1Step3_eq]
  · rw [c1Final_eq]
    decide
  · rw [c1Final_eq]
    decide

/-- C5.  `deleteRoom` removes the room and deletes nothing from the
remaining room, but does NOT sever the remaining room's portal wall:
its `connectedRoomId`/`connectedPortalId` still point at the deleted
room instead of being nulled as the claim states. -/
theorem deleteRoom_leaves_dangling_portal_link :
    (∀ r ∈ c1Final.rooms, r.id ≠ "room-A") ∧
    ∃ r ∈ c1Final.rooms, r.id = "room-B" ∧ r.walls = c1RoomB3.walls ∧
      r.vertices = c1RoomB3.vertices ∧
      ∃ w ∈ r.walls, w.id = "portal-B" ∧ w.connectedRoomId = some "room-A" ∧
        w.connectedPortalId = some "portal-A" := by
  rw [c1Final_eq]
  decide

/-! ## Vertex usage after a collapsing merge (C7) -/

/-- Empty floor plan on a 100×100 grid. -/
def c7Empty : FloorPlan := { gridSizeWidth := 100, gridSizeHeight := 100, rooms := [] }

/-- Step 1: place a room. -/
def c7Step1 : FloorPlan := placeRoomAtGridPosition c7Empty 0 0 "room-E" "Room 1" "#ee0000"

/-- Step 2: draw a 12-unit wall (above the 10-unit minimum) from (0,0)
to (12,0). -/
def c7Step2 : FloorPlan :=
  addWallToRoom c7Step1 "room-E" none 0 0 12 0 "wall-E" "vE1" "vE2"

/-- Step 3: drag one wall endpoint exactly onto the other, merging
them. -/
def c7Final : FloorPlan := handleVertexDrag c7Step2 "room-E" "vE1" 12 0

/-- The room as placed. -/
def c7RoomE1 : Room :=
  { id := "room-E", x := 0, y := 0, width := 100, height := 100,
    name := "Room 1", color := "#ee0000", gridX := 0, gridY := 0 }

/-- The room with the single wall. -/
def c7RoomE2 : Room :=
  { c7RoomE1 with
    walls := [{ id := "wall-E", vertexIds := ["vE1", "vE2"] }],
    vertices := [{ id := "vE1", x := 0, y := 0 }, { id := "vE2", x := 12, y := 0 }] }

/-- The room after the merge: the wall collapsed away, yet the merge
target vertex remains. -/
def c7RoomE3 : Room :=
  { c7RoomE2 with walls := [], vertices := [{ id := "vE2", x := 12, y := 0 }] }

lemma c7Step1_eq :
    c7Step1 = { gridSizeWidth := 100, gridSizeHeight := 100, rooms := [c7RoomE1] } := by
  norm_num [c7Step1, c7Empty, placeRoomAtGridPosition, newRoomAt, c7RoomE1, List.find?]

lemma c7Step2_eq :
    c7Step2 = { gridSizeWidth := 100, gridSizeHeight := 100, rooms := [c7RoomE2] } := by
  rw [c7Step2, c7Step1_eq]
  decide

lemma c7Final_eq :
    c7Final = { gridSizeWidth := 100, gridSizeHeight := 100, rooms := [c7RoomE3] } := by
  rw [c7Final, c7Step2_eq]
  have hroom : List.find? (fun r => r.id == "room-E")
      (FloorPlan.mk 100 100 [c7RoomE2]).rooms = some c7RoomE2 := by decide
  have hdv : List.find? (fun v => v.id == "vE1") c7RoomE2.vertices =
      some { id := "vE1", x := 0, y := 0 } := by decide
  have hmt : findMergeTarget c7RoomE2.vertices "vE1" 12 0 =
      some { id := "vE2", x := 12, y := 0 } := by
    unfold findMergeTarget c7RoomE2 c7RoomE1
    rw [List.find?_cons_of_neg, List.find?_cons_of_pos]
    all_goals norm_num [distSq]
    all_goals decide
  unfold handleVertexDrag
  simp only [hroom, hdv, hmt]
  decide

/-- C7.  The vertex usage invariant fails on a reachable state: after
placing a room, drawing a 12-unit wall and dragging one endpoint onto
the other, the collapsed wall is removed and the dragged vertex
deleted, but the merge-target vertex stays with no wall referencing
it. -/
theorem zero_usage_vertex_after_merge :
    ∃ r ∈ c7Final.rooms, r.id = "room-E" ∧ r.walls = [] ∧
      ∃ v ∈ r.vertices, ∀ w ∈ r.walls, ¬(v.id ∈ w.vertexIds) := by
  rw [c7Final_eq]
  decide

end Impossidraw
